import Mathlib

/-!
Shallow embedding of the freeze-o-matic core (src/freezeomatic/run.py):
the data model (storage classes, manifest entries, ledger entries and
statuses), the reconciler `_update_lock_entries`, the orchestrator loop
`_upload` / `_upload_entry`, the archiver `_compress_tgz` / `_pack_tar`,
the uploader `_upload_file` and the ledger serializer `_dump_lock`.

External effects are made explicit: the local filesystem is a value `FS`
(which paths are files, which are directories), the object store is an
environment `Env` giving each upload call's outcome (`false` models a
caught provider `ClientError`), and the run state `RunState` records the
filesystem, the list of upload calls issued, and the sequence of full
ledger rewrites (`_dump_lock` snapshots).
-/

namespace Freezeomatic

/-- `StorageClass` enum from run.py. -/
inductive StorageClass where
  | STANDARD
  | REDUCED_REDUNDANCY
  | STANDARD_IA
  | ONEZONE_IA
  | INTELLIGENT_TIERING
  | GLACIER
  | DEEP_ARCHIVE
  | OUTPOSTS
deriving DecidableEq, Repr, Inhabited

/-- `StorageClass(value)` constructor lookup: the enum values equal the names. -/
def StorageClass.ofString (s : String) : Option StorageClass :=
  if s = "STANDARD" then some .STANDARD
  else if s = "REDUCED_REDUNDANCY" then some .REDUCED_REDUNDANCY
  else if s = "STANDARD_IA" then some .STANDARD_IA
  else if s = "ONEZONE_IA" then some .ONEZONE_IA
  else if s = "INTELLIGENT_TIERING" then some .INTELLIGENT_TIERING
  else if s = "GLACIER" then some .GLACIER
  else if s = "DEEP_ARCHIVE" then some .DEEP_ARCHIVE
  else if s = "OUTPOSTS" then some .OUTPOSTS
  else none

/-- Python `Enum.name` of a storage class (used by `_dump_lock`). -/
def StorageClass.name : StorageClass → String
  | .STANDARD => "STANDARD"
  | .REDUCED_REDUNDANCY => "REDUCED_REDUNDANCY"
  | .STANDARD_IA => "STANDARD_IA"
  | .ONEZONE_IA => "ONEZONE_IA"
  | .INTELLIGENT_TIERING => "INTELLIGENT_TIERING"
  | .GLACIER => "GLACIER"
  | .DEEP_ARCHIVE => "DEEP_ARCHIVE"
  | .OUTPOSTS => "OUTPOSTS"

/-- `DEFAULT_STORAGE = StorageClass.DEEP_ARCHIVE`. -/
def DEFAULT_STORAGE : StorageClass := StorageClass.DEEP_ARCHIVE

/-- `FreezerEntry` dataclass: one desired (manifest) entry. -/
structure FreezerEntry where
  source_path : String
  target_path : String
  storage_class : StorageClass
  force : Bool
deriving DecidableEq, Repr, Inhabited

/-- `LockStatus` enum from run.py. -/
inductive LockStatus where
  | PENDING
  | FREEZING
  | FROZEN
  | DEPRECATED
deriving DecidableEq, Repr, Inhabited

/-- Python `Enum.value` of a lock status (the string stored in the ledger). -/
def LockStatus.value : LockStatus → String
  | .PENDING => "00-pending"
  | .FREEZING => "10-freezing"
  | .FROZEN => "20-frozen"
  | .DEPRECATED => "90-deprecated"

/-- `LockStatus(value)` constructor lookup for ledger parsing. -/
def LockStatus.ofString (s : String) : Option LockStatus :=
  if s = "00-pending" then some .PENDING
  else if s = "10-freezing" then some .FREEZING
  else if s = "20-frozen" then some .FROZEN
  else if s = "90-deprecated" then some .DEPRECATED
  else none

/-- `UPLOADED_STATUSES = {LockStatus.FROZEN, LockStatus.DEPRECATED}`. -/
def UPLOADED_STATUSES : List LockStatus := [LockStatus.FROZEN, LockStatus.DEPRECATED]

/-- `FreezerLockEntry` dataclass: one persisted ledger entry. -/
structure FreezerLockEntry where
  target_path : String
  source_path : String
  storage_class : StorageClass
  status : LockStatus
  force : Bool
deriving DecidableEq, Repr, Inhabited

/-- `FreezerLockEntry.deprecate`: replace status with DEPRECATED. -/
def FreezerLockEntry.deprecate (e : FreezerLockEntry) : FreezerLockEntry :=
  { e with status := LockStatus.DEPRECATED }

/-- `FreezerLockEntry.requires_upload`:
`self.status not in UPLOADED_STATUSES or self.force`. -/
def FreezerLockEntry.requires_upload (e : FreezerLockEntry) : Bool :=
  !(UPLOADED_STATUSES.contains e.status) || e.force

/-- `_read_freezer`, one CSV row: `FreezerEntry(source_path=row[0],
target_path=row[1], storage_class=StorageClass(row[2]) if row[2] != ''
else DEFAULT_STORAGE, force=row[3] == 'force')`.  `none` models the
IndexError / ValueError a malformed row raises. -/
def readFreezerRow (row : List String) : Option FreezerEntry := do
  let source ← row.get? 0
  let target ← row.get? 1
  let scStr ← row.get? 2
  let forceStr ← row.get? 3
  let sc ← if scStr = "" then some DEFAULT_STORAGE else StorageClass.ofString scStr
  pure ⟨source, target, sc, forceStr == "force"⟩

/-- `_read_freezer` over the parsed CSV rows of the manifest file. -/
def _read_freezer (rows : List (List String)) : Option (List FreezerEntry) :=
  rows.mapM readFreezerRow

/-- `_read_lock`, one CSV row: `FreezerLockEntry(target_path=row[0],
source_path=row[1], storage_class=StorageClass(row[2]),
status=LockStatus(row[3]), force=row[4] == 'force')`. -/
def readLockRow (row : List String) : Option FreezerLockEntry := do
  let target ← row.get? 0
  let source ← row.get? 1
  let scStr ← row.get? 2
  let stStr ← row.get? 3
  let forceStr ← row.get? 4
  let sc ← StorageClass.ofString scStr
  let st ← LockStatus.ofString stStr
  pure ⟨target, source, sc, st, forceStr == "force"⟩

/-- `_read_lock`: a missing ledger file (`none`) yields the empty ledger;
an existing file is parsed row by row. -/
def _read_lock (rows : Option (List (List String))) : Option (List FreezerLockEntry) :=
  match rows with
  | none => some []
  | some rs => rs.mapM readLockRow

/-- `_update_lock_entries`: first loop carries forward the matching ledger
entry per manifest entry (or synthesizes a PENDING one), second loop
appends DEPRECATED versions of ledger entries no longer in the manifest.
Embeds the two Python `for`/`append` loops as left folds. -/
def _update_lock_entries (freezer_entries : List FreezerEntry)
    (lock_entries : List FreezerLockEntry) : List FreezerLockEntry :=
  let firstPass := freezer_entries.foldl (fun updated freezer_entry =>
    updated ++ [match lock_entries.find?
        (fun le => le.target_path == freezer_entry.target_path) with
      | some lock_entry => lock_entry
      | none => ⟨freezer_entry.target_path, freezer_entry.source_path,
          freezer_entry.storage_class, LockStatus.PENDING, freezer_entry.force⟩]) []
  lock_entries.foldl (fun updated lock_entry =>
    if (freezer_entries.find?
        (fun fe => fe.target_path == lock_entry.target_path)).isSome then updated
    else updated ++ [lock_entry.deprecate]) firstPass

/-- Spec-side form of the reconciler's first pass on one manifest entry:
the matching ledger entry carried forward, else a fresh PENDING entry. -/
def resolveEntry (lock_entries : List FreezerLockEntry) (fe : FreezerEntry) :
    FreezerLockEntry :=
  match lock_entries.find? (fun le => le.target_path == fe.target_path) with
  | some lock_entry => lock_entry
  | none => ⟨fe.target_path, fe.source_path, fe.storage_class,
      LockStatus.PENDING, fe.force⟩

/-- Spec-side form of the whole reconciler: manifest entries resolved in
manifest order, then leftover ledger entries deprecated in ledger order. -/
def reconcileSpec (freezer_entries : List FreezerEntry)
    (lock_entries : List FreezerLockEntry) : List FreezerLockEntry :=
  freezer_entries.map (resolveEntry lock_entries) ++
    (lock_entries.filter (fun le => (freezer_entries.find?
        (fun fe => fe.target_path == le.target_path)).isNone)).map
      FreezerLockEntry.deprecate

theorem foldl_append_singleton {α β : Type} (f : α → β) :
    ∀ (l : List α) (acc : List β),
      l.foldl (fun updated x => updated ++ [f x]) acc = acc ++ l.map f := by
  intro l
  induction l with
  | nil => intro acc; simp
  | cons x xs ih => intro acc; simp [List.foldl, ih]

theorem foldl_filter_append_singleton {α β : Type} (p : α → Bool) (f : α → β) :
    ∀ (l : List α) (acc : List β),
      l.foldl (fun updated x => if p x then updated else updated ++ [f x]) acc
        = acc ++ (l.filter (fun x => !(p x))).map f := by
  intro l
  induction l with
  | nil => intro acc; simp
  | cons x xs ih =>
    intro acc
    by_cases hx : p x
    · simp [List.foldl, hx, ih]
    · simp [List.foldl, hx, ih]

/-- The imperative reconciler equals its map/filter form. -/
theorem update_lock_entries_eq_reconcileSpec
    (freezer_entries : List FreezerEntry) (lock_entries : List FreezerLockEntry) :
    _update_lock_entries freezer_entries lock_entries
      = reconcileSpec freezer_entries lock_entries := by
  show lock_entries.foldl
      (fun updated lock_entry => if (freezer_entries.find?
          (fun fe => fe.target_path == lock_entry.target_path)).isSome then updated
        else updated ++ [lock_entry.deprecate])
      (freezer_entries.foldl
        (fun updated fe => updated ++ [resolveEntry lock_entries fe]) [])
    = reconcileSpec freezer_entries lock_entries
  rw [foldl_append_singleton, foldl_filter_append_singleton]
  have hp : (fun (le : FreezerLockEntry) => !(freezer_entries.find?
        (fun fe => fe.target_path == le.target_path)).isSome)
      = (fun (le : FreezerLockEntry) => (freezer_entries.find?
        (fun fe => fe.target_path == le.target_path)).isNone) := by
    funext le
    cases freezer_entries.find? (fun fe => fe.target_path == le.target_path) <;> rfl
  rw [hp]
  rfl

/-- Local filesystem state: which paths `os.path.isfile` / `os.path.isdir`
hold for.  Packaging adds the staged artifact to `files`. -/
structure FS where
  files : List String
  dirs : List String
deriving DecidableEq, Repr, Inhabited

/-- `os.path.isfile`. -/
def FS.isfile (fs : FS) (p : String) : Bool := fs.files.contains p

/-- `os.path.isdir`. -/
def FS.isdir (fs : FS) (p : String) : Bool := fs.dirs.contains p

/-- One transfer issued to the object store by `_upload_file`. -/
structure UploadCall where
  source_path : String
  target_path : String
  storage_class : StorageClass
deriving DecidableEq, Repr, Inhabited

/-- The object store collaborator: decides whether a given upload call
(source artifact path, target key) succeeds or raises a `ClientError`. -/
structure Env where
  uploadOk : String → String → Bool

/-- The serialized CSV contents of one full ledger rewrite. -/
abbrev Ledger := List (List String)

/-- Mutable run state: the filesystem, the upload calls issued so far, and
the sequence of full ledger rewrites performed by `_dump_lock`. -/
structure RunState where
  fs : FS
  uploads : List UploadCall
  dumps : List Ledger
deriving DecidableEq, Repr, Inhabited

/-- `_dump_lock`: serialize every entry as
`[target_path, source_path, storage_class.name, status.value, force-marker]`. -/
def _dump_lock (entries : List FreezerLockEntry) : Ledger :=
  entries.map (fun entry =>
    [entry.target_path, entry.source_path, entry.storage_class.name,
     entry.status.value, if entry.force then "force" else ""])

/-- Record one full ledger rewrite in the run state. -/
def addDump (st : RunState) (entries : List FreezerLockEntry) : RunState :=
  { st with dumps := st.dumps ++ [_dump_lock entries] }

/-- Python `str.endswith`: the second string is a suffix of the first.
Stated structurally over the character lists so that it evaluates. -/
def str_endswith (s suffixStr : String) : Bool :=
  suffixStr.data.isSuffixOf s.data

/-- Python `str.startswith`: the second string is a prefix of the first. -/
def str_startswith (s prefixStr : String) : Bool :=
  prefixStr.data.isPrefixOf s.data

/-- `os.path.basename` for POSIX paths: everything after the last slash. -/
def os_path_basename (p : String) : String :=
  ⟨(p.data.reverse.takeWhile (fun c => !(c == '/'))).reverse⟩

/-- `os.path.join` for POSIX paths, two arguments. -/
def os_path_join (a b : String) : String :=
  if str_startswith b "/" then b
  else if a = "" || str_endswith a "/" then a ++ b
  else a ++ "/" ++ b

/-- `_upload_file`: issues one transfer; returns `true` on success, `false`
when the provider raises a `ClientError` (caught, logged, not re-raised).
The environment decides each call's outcome. -/
def _upload_file (source_path : String) (target_path : String)
    (storage_class : StorageClass) (env : Env) (st : RunState) :
    Bool × RunState :=
  (env.uploadOk source_path target_path,
   { st with uploads := st.uploads ++ [⟨source_path, target_path, storage_class⟩] })

/-- `_compress_tgz`: stage `<tmp_dir>/<basename(source_path)>.tar.gz`;
skip packaging when that artifact already exists, else create it. -/
def _compress_tgz (entry : FreezerLockEntry) ( _python_tar : Bool)
    (tmp_dir : String) (fs : FS) : FS × String :=
  let source_path := entry.source_path
  let local_tgz := os_path_join tmp_dir (os_path_basename source_path ++ ".tar.gz")
  if fs.isfile local_tgz then (fs, local_tgz)
  else ({ fs with files := local_tgz :: fs.files }, local_tgz)

/-- `_pack_tar`: stage `<tmp_dir>/<basename(source_path)>.tar`;
skip packaging when that artifact already exists, else create it. -/
def _pack_tar (entry : FreezerLockEntry) ( _python_tar : Bool)
    (tmp_dir : String) (fs : FS) : FS × String :=
  let source_path := entry.source_path
  let local_tar := os_path_join tmp_dir (os_path_basename source_path ++ ".tar")
  if fs.isfile local_tar then (fs, local_tar)
  else ({ fs with files := local_tar :: fs.files }, local_tar)

/-- `_upload_entry`: plain file sources are uploaded directly (note the
source drops `_upload_file`'s result and falls through to `return False`);
directory sources are packaged by target suffix (`endswith('tar.gz')`,
`endswith('tar')`) then uploaded, returning the upload's outcome; anything
else raises `ValueError` (modelled as `Except.error`). -/
def _upload_entry (entry : FreezerLockEntry) (python_tar : Bool)
    (tmp_dir : String) (env : Env) (st : RunState) :
    Except String (Bool × RunState) :=
  let source_path := entry.source_path
  let target_path := entry.target_path
  let storage_class := entry.storage_class
  if st.fs.isfile source_path then
    let (_success, st1) := _upload_file source_path target_path storage_class env st
    Except.ok (false, st1)
  else if st.fs.isdir source_path then
    if str_endswith target_path "tar.gz" then
      let (fs1, local_file) := _compress_tgz entry python_tar tmp_dir st.fs
      let (success, st1) :=
        _upload_file local_file target_path storage_class env { st with fs := fs1 }
      Except.ok (success, st1)
    else if str_endswith target_path "tar" then
      let (fs1, local_file) := _pack_tar entry python_tar tmp_dir st.fs
      let (success, st1) :=
        _upload_file local_file target_path storage_class env { st with fs := fs1 }
      Except.ok (success, st1)
    else
      Except.error ("Unknown extension for dir: " ++ target_path)
  else
    Except.error ("Unsupported entry upload: " ++ target_path)

/-- In-place `entry.status = s` on the i-th ledger entry (the Python loop
mutates the entry object aliased inside `lock_entries`). -/
def setStatus (entries : List FreezerLockEntry) (i : Nat) (s : LockStatus) :
    List FreezerLockEntry :=
  match entries.get? i with
  | some e => entries.set i { e with status := s }
  | none => entries

/-- Indices of `pending = [e for e in lock_entries if e.requires_upload()]`,
computed on the statuses current when `_upload` starts. -/
def pendingIndices (entries : List FreezerLockEntry) : List Nat :=
  (List.range entries.length).filter (fun i =>
    match entries.get? i with
    | some e => e.requires_upload
    | none => false)

/-- The `for entry in pending` loop of `_upload`: set FREEZING, persist,
attempt the upload, on success set FROZEN, persist after either outcome,
and continue; a raised `ValueError` aborts the whole run. -/
def _uploadLoop (idxs : List Nat) (entries : List FreezerLockEntry)
    (python_tar : Bool) (tmp_dir : String) (env : Env) (st : RunState) :
    Except String (List FreezerLockEntry × RunState) :=
  match idxs with
  | [] => Except.ok (entries, st)
  | i :: rest =>
    let entries1 := setStatus entries i LockStatus.FREEZING
    let st1 := addDump st entries1
    match _upload_entry (entries1.getD i default) python_tar tmp_dir env st1 with
    | Except.error msg => Except.error msg
    | Except.ok (success, st2) =>
      let entries2 :=
        if success then setStatus entries1 i LockStatus.FROZEN else entries1
      _uploadLoop rest entries2 python_tar tmp_dir env (addDump st2 entries2)

/-- `_upload`: persist the reconciled ledger, select the entries requiring
upload, then drive the per-entry loop. -/
def _upload (lock_entries : List FreezerLockEntry) (python_tar : Bool)
    (tmp_dir : String) (env : Env) (st : RunState) :
    Except String (List FreezerLockEntry × RunState) :=
  _uploadLoop (pendingIndices lock_entries) lock_entries python_tar tmp_dir env
    (addDump st lock_entries)

/-- `freeze`: reconcile the manifest against the ledger, then upload.
(The CSV reading of both files is modelled separately by `_read_freezer`
and `_read_lock`.) -/
def freeze (freezer_entries : List FreezerEntry)
    (lock_entries : List FreezerLockEntry) (python_tar : Bool)
    (tmp_dir : String) (env : Env) (st : RunState) :
    Except String (List FreezerLockEntry × RunState) :=
  _upload (_update_lock_entries freezer_entries lock_entries) python_tar tmp_dir
    env st

/-! Helper lemmas about the embedded operations. -/

theorem resolveEntry_target (lock_entries : List FreezerLockEntry)
    (fe : FreezerEntry) :
    (resolveEntry lock_entries fe).target_path = fe.target_path := by
  unfold resolveEntry
  cases h : lock_entries.find? (fun le => le.target_path == fe.target_path) with
  | none => rfl
  | some le =>
    have hb := List.find?_some
      (p := fun (x : FreezerLockEntry) => x.target_path == fe.target_path) h
    exact eq_of_beq hb

theorem setStatus_length (l : List FreezerLockEntry) (i : Nat) (s : LockStatus) :
    (setStatus l i s).length = l.length := by
  unfold setStatus
  cases h : l.get? i <;> simp

theorem setStatus_get?_ne (l : List FreezerLockEntry) (i j : Nat)
    (s : LockStatus) (hij : i ≠ j) : (setStatus l i s).get? j = l.get? j := by
  unfold setStatus
  cases h : l.get? i with
  | none => rfl
  | some e =>
    simp only [List.get?_eq_getElem?]
    exact List.getElem?_set_ne hij

theorem setStatus_get?_eq (l : List FreezerLockEntry) (i : Nat)
    (s : LockStatus) (e : FreezerLockEntry) (h : l.get? i = some e) :
    (setStatus l i s).get? i = some { e with status := s } := by
  unfold setStatus
  rw [h]
  obtain ⟨hlt, -⟩ := List.get?_eq_some.mp h
  simp only [List.get?_eq_getElem?]
  exact List.getElem?_set_self hlt

theorem setStatus_get?_target (l : List FreezerLockEntry) (i j : Nat)
    (s : LockStatus) :
    ((setStatus l i s).get? j).map FreezerLockEntry.target_path
      = (l.get? j).map FreezerLockEntry.target_path := by
  by_cases hij : i = j
  · subst hij
    cases h : l.get? i with
    | none =>
      rw [show setStatus l i s = l from by unfold setStatus; rw [h]]
      rw [h]
    | some e =>
      rw [setStatus_get?_eq l i s e h]
      rfl
  · rw [setStatus_get?_ne l i j s hij]

theorem setStatus_map_target (l : List FreezerLockEntry) (i : Nat)
    (s : LockStatus) :
    (setStatus l i s).map FreezerLockEntry.target_path
      = l.map FreezerLockEntry.target_path := by
  apply List.ext_getElem?
  intro n
  rw [List.getElem?_map, List.getElem?_map]
  have := setStatus_get?_target l i n s
  simpa [List.get?_eq_getElem?] using this

theorem upload_entry_ok_uploads (entry : FreezerLockEntry) (python_tar : Bool)
    (tmp_dir : String) (env : Env) (st : RunState) (b : Bool) (st' : RunState)
    (h : _upload_entry entry python_tar tmp_dir env st = Except.ok (b, st')) :
    ∃ src, st'.uploads
      = st.uploads ++ [⟨src, entry.target_path, entry.storage_class⟩] := by
  unfold _upload_entry at h
  by_cases h1 : st.fs.isfile entry.source_path
  · simp only [h1, if_true] at h
    unfold _upload_file at h
    injection h with h
    injection h with h2 h3
    exact ⟨entry.source_path, by rw [← h3]⟩
  · simp only [h1, if_false] at h
    by_cases h2 : st.fs.isdir entry.source_path
    · simp only [h2, if_true] at h
      by_cases h3 : str_endswith entry.target_path "tar.gz"
      · simp only [h3, if_true] at h
        unfold _upload_file at h
        injection h with h
        injection h with h4 h5
        exact ⟨(_compress_tgz entry python_tar tmp_dir st.fs).2, by rw [← h5]⟩
      · simp only [h3, if_false] at h
        by_cases h4 : str_endswith entry.target_path "tar"
        · simp only [h4, if_true] at h
          unfold _upload_file at h
          injection h with h
          injection h with h5 h6
          exact ⟨(_pack_tar entry python_tar tmp_dir st.fs).2, by rw [← h6]⟩
        · simp only [h4, if_false] at h
          exact absurd h (by simp)
    · simp only [h2, if_false] at h
      exact absurd h (by simp)

theorem uploadLoop_map_target (python_tar : Bool) (tmp_dir : String) (env : Env) :
    ∀ (idxs : List Nat) (entries : List FreezerLockEntry) (st : RunState)
      (final : List FreezerLockEntry) (st' : RunState),
      _uploadLoop idxs entries python_tar tmp_dir env st = Except.ok (final, st') →
      final.map FreezerLockEntry.target_path
        = entries.map FreezerLockEntry.target_path := by
  intro idxs
  induction idxs with
  | nil =>
    intro entries st final st' h
    unfold _uploadLoop at h
    injection h with h
    injection h with h1 h2
    rw [h1]
  | cons i rest ih =>
    intro entries st final st' h
    unfold _uploadLoop at h
    dsimp only [] at h
    cases hup : _upload_entry ((setStatus entries i LockStatus.FREEZING).getD i
        default) python_tar tmp_dir env
        (addDump st (setStatus entries i LockStatus.FREEZING)) with
    | error msg =>
      rw [hup] at h
      exact absurd h (by simp)
    | ok res =>
      obtain ⟨success, st2⟩ := res
      rw [hup] at h
      have h2 := ih _ _ _ _ h
      cases success with
      | false =>
        simp only [Bool.false_eq_true, if_false] at h2
        rw [h2, setStatus_map_target]
      | true =>
        simp only [if_true] at h2
        rw [h2, setStatus_map_target, setStatus_map_target]

theorem uploadLoop_get?_frame (python_tar : Bool) (tmp_dir : String) (env : Env)
    (j : Nat) :
    ∀ (idxs : List Nat) (entries : List FreezerLockEntry) (st : RunState)
      (final : List FreezerLockEntry) (st' : RunState), j ∉ idxs →
      _uploadLoop idxs entries python_tar tmp_dir env st = Except.ok (final, st') →
      final.get? j = entries.get? j := by
  intro idxs
  induction idxs with
  | nil =>
    intro entries st final st' _ h
    unfold _uploadLoop at h
    injection h with h
    injection h with h1 h2
    rw [h1]
  | cons i rest ih =>
    intro entries st final st' hj h
    have hji : i ≠ j := fun hc => hj (hc ▸ List.mem_cons_self i rest)
    have hjr : j ∉ rest := fun hc => hj (List.mem_cons_of_mem i hc)
    unfold _uploadLoop at h
    dsimp only [] at h
    cases hup : _upload_entry ((setStatus entries i LockStatus.FREEZING).getD i
        default) python_tar tmp_dir env
        (addDump st (setStatus entries i LockStatus.FREEZING)) with
    | error msg =>
      rw [hup] at h
      exact absurd h (by simp)
    | ok res =>
      obtain ⟨success, st2⟩ := res
      rw [hup] at h
      have h2 := ih _ _ _ _ hjr h
      cases success with
      | false =>
        simp only [Bool.false_eq_true, if_false] at h2
        rw [h2, setStatus_get?_ne _ _ _ _ hji]
      | true =>
        simp only [if_true] at h2
        rw [h2, setStatus_get?_ne _ _ _ _ hji, setStatus_get?_ne _ _ _ _ hji]

theorem uploadLoop_uploads (python_tar : Bool) (tmp_dir : String) (env : Env) :
    ∀ (idxs : List Nat) (entries : List FreezerLockEntry) (st : RunState)
      (final : List FreezerLockEntry) (st' : RunState),
      (∀ i ∈ idxs, i < entries.length) →
      _uploadLoop idxs entries python_tar tmp_dir env st = Except.ok (final, st') →
      ∀ c ∈ st'.uploads, c ∈ st.uploads ∨
        ∃ i, i ∈ idxs ∧ ∃ e, entries.get? i = some e
          ∧ c.target_path = e.target_path := by
  intro idxs
  induction idxs with
  | nil =>
    intro entries st final st' _ h c hc
    unfold _uploadLoop at h
    injection h with h
    injection h with h1 h2
    left
    rw [h2]
    exact hc
  | cons i rest ih =>
    intro entries st final st' hlen h c hc
    have hi : i < entries.length := hlen i (List.mem_cons_self i rest)
    obtain ⟨e0, he0⟩ : ∃ e0, entries.get? i = some e0 := by
      cases he : entries.get? i with
      | none =>
        rw [List.get?_eq_getElem?] at he
        rw [List.getElem?_eq_none_iff] at he
        omega
      | some e0 => exact ⟨e0, rfl⟩
    have hgd : (setStatus entries i LockStatus.FREEZING).getD i default
        = { e0 with status := LockStatus.FREEZING } := by
      have hset := setStatus_get?_eq entries i LockStatus.FREEZING e0 he0
      rw [List.getD_eq_getElem?_getD, ← List.get?_eq_getElem?, hset]
      rfl
    unfold _uploadLoop at h
    dsimp only [] at h
    cases hup : _upload_entry ((setStatus entries i LockStatus.FREEZING).getD i
        default) python_tar tmp_dir env
        (addDump st (setStatus entries i LockStatus.FREEZING)) with
    | error msg =>
      rw [hup] at h
      exact absurd h (by simp)
    | ok res =>
      obtain ⟨success, st2⟩ := res
      rw [hup] at h
      rw [hgd] at hup
      obtain ⟨src, hsrc⟩ := upload_entry_ok_uploads _ _ _ _ _ _ _ hup
      have hrest : ∀ i' ∈ rest,
          i' < (if success = true
            then setStatus (setStatus entries i LockStatus.FREEZING) i
              LockStatus.FROZEN
            else setStatus entries i LockStatus.FREEZING).length := by
        intro i' hi'
        have := hlen i' (List.mem_cons_of_mem i hi')
        cases success <;> simp [setStatus_length, this]
      have h2 := ih _ _ _ _ hrest h c hc
      cases h2 with
      | inr h2 =>
        obtain ⟨i', hi', e, he, hte⟩ := h2
        right
        have htarget : ((if success = true
            then setStatus (setStatus entries i LockStatus.FREEZING) i
              LockStatus.FROZEN
            else setStatus entries i LockStatus.FREEZING).get? i').map
              FreezerLockEntry.target_path
            = (entries.get? i').map FreezerLockEntry.target_path := by
          cases success with
          | false =>
            simp only [Bool.false_eq_true, if_false]
            exact setStatus_get?_target entries i i' LockStatus.FREEZING
          | true =>
            simp only [if_true]
            rw [setStatus_get?_target, setStatus_get?_target]
        rw [he] at htarget
        cases he' : entries.get? i' with
        | none => rw [he'] at htarget; exact absurd htarget (by simp)
        | some e' =>
          rw [he'] at htarget
          simp only [Option.map_some'] at htarget
          injection htarget with htarget
          exact ⟨i', List.mem_cons_of_mem i hi', e', he', hte.trans htarget⟩
      | inl h2 =>
        have h2' : c ∈ st2.uploads := h2
        rw [hsrc] at h2'
        have h2'' : c ∈ st.uploads
            ++ [(⟨src, e0.target_path, e0.storage_class⟩ : UploadCall)] := h2'
        rw [List.mem_append] at h2''
        cases h2'' with
        | inl hcc => exact Or.inl hcc
        | inr hcc =>
          right
          refine ⟨i, List.mem_cons_self i rest, e0, he0, ?_⟩
          rw [List.mem_singleton] at hcc
          rw [hcc]

theorem mem_pendingIndices (l : List FreezerLockEntry) (i : Nat) :
    i ∈ pendingIndices l
      ↔ ∃ e, l.get? i = some e ∧ e.requires_upload = true := by
  unfold pendingIndices
  rw [List.mem_filter, List.mem_range]
  constructor
  · rintro ⟨hlt, hp⟩
    cases he : l.get? i with
    | none => rw [he] at hp; exact absurd hp (by simp)
    | some e => rw [he] at hp; exact ⟨e, rfl, hp⟩
  · rintro ⟨e, he, hr⟩
    obtain ⟨hlt, -⟩ := List.get?_eq_some.mp he
    refine ⟨hlt, ?_⟩
    rw [he]
    exact hr

theorem reconcile_firstPass_map_target (M : List FreezerEntry)
    (L : List FreezerLockEntry) :
    (M.map (resolveEntry L)).map FreezerLockEntry.target_path
      = M.map FreezerEntry.target_path := by
  rw [List.map_map]
  exact List.map_congr_left (fun fe _ => resolveEntry_target L fe)

theorem reconcile_secondPass_not_mem (M : List FreezerEntry)
    (L : List FreezerLockEntry) (e : FreezerLockEntry)
    (he : e ∈ (L.filter (fun le => (M.find?
        (fun fe => fe.target_path == le.target_path)).isNone)).map
      FreezerLockEntry.deprecate) :
    e.target_path ∉ M.map FreezerEntry.target_path := by
  rw [List.mem_map] at he
  obtain ⟨le, hle, heq⟩ := he
  rw [List.mem_filter] at hle
  obtain ⟨-, hpred⟩ := hle
  rw [Option.isNone_iff_eq_none, List.find?_eq_none] at hpred
  intro hmem
  rw [List.mem_map] at hmem
  obtain ⟨fe, hfe, hfeq⟩ := hmem
  apply hpred fe hfe
  have h1 : fe.target_path = le.target_path := by
    rw [hfeq, ← heq]
    rfl
  exact beq_iff_eq.mpr h1

theorem reconcile_map_target_nodup (M : List FreezerEntry)
    (L : List FreezerLockEntry)
    (hM : (M.map FreezerEntry.target_path).Nodup)
    (hL : (L.map FreezerLockEntry.target_path).Nodup) :
    ((_update_lock_entries M L).map FreezerLockEntry.target_path).Nodup := by
  rw [update_lock_entries_eq_reconcileSpec]
  unfold reconcileSpec
  rw [List.map_append]
  apply List.Nodup.append
  · rw [reconcile_firstPass_map_target]
    exact hM
  · rw [List.map_map]
    have hmm : List.map (FreezerLockEntry.target_path ∘ FreezerLockEntry.deprecate)
          (L.filter (fun le => (M.find?
            (fun fe => fe.target_path == le.target_path)).isNone))
        = List.map FreezerLockEntry.target_path
          (L.filter (fun le => (M.find?
            (fun fe => fe.target_path == le.target_path)).isNone)) :=
      List.map_congr_left (fun x _ => rfl)
    rw [hmm]
    exact List.Nodup.sublist
      (List.Sublist.map FreezerLockEntry.target_path (List.filter_sublist L)) hL
  · intro t ht1 ht2
    rw [reconcile_firstPass_map_target] at ht1
    rw [List.map_map, List.mem_map] at ht2
    obtain ⟨le, hle, heq⟩ := ht2
    have hnm : le.deprecate.target_path ∉ M.map FreezerEntry.target_path :=
      reconcile_secondPass_not_mem M L le.deprecate
        (List.mem_map_of_mem FreezerLockEntry.deprecate hle)
    rw [show le.deprecate.target_path = t from heq] at hnm
    exact hnm ht1

theorem reconcile_count_one (M : List FreezerEntry) (L : List FreezerLockEntry)
    (hM : (M.map FreezerEntry.target_path).Nodup) (t : String)
    (ht : t ∈ M.map FreezerEntry.target_path) :
    ((_update_lock_entries M L).filter
      (fun e => e.target_path == t)).length = 1 := by
  rw [update_lock_entries_eq_reconcileSpec]
  unfold reconcileSpec
  rw [← List.countP_eq_length_filter, List.countP_append]
  have h1 : List.countP (fun e => e.target_path == t) (M.map (resolveEntry L))
      = 1 := by
    rw [List.countP_map]
    have hc : List.countP
          ((fun (e : FreezerLockEntry) => e.target_path == t) ∘ resolveEntry L) M
        = List.countP ((fun s => s == t) ∘ FreezerEntry.target_path) M := by
      apply List.countP_congr
      intro fe _
      simp only [Function.comp_apply, resolveEntry_target]
    rw [hc, ← List.countP_map, ← List.count_eq_countP]
    exact List.count_eq_one_of_mem hM ht
  have h2 : List.countP (fun e => e.target_path == t)
      ((L.filter (fun le => (M.find?
        (fun fe => fe.target_path == le.target_path)).isNone)).map
        FreezerLockEntry.deprecate) = 0 := by
    rw [List.countP_eq_zero]
    intro e he hbe
    have hnm := reconcile_secondPass_not_mem M L e he
    rw [show e.target_path = t from eq_of_beq hbe] at hnm
    exact hnm ht
  rw [h1, h2]


/-! Concrete fixtures used by the claim theorems below. -/

/-- Object store in which every upload succeeds. -/
def allOkEnv : Env := ⟨fun _ _ => true⟩

/-- Object store in which every upload fails with a `ClientError`. -/
def allFailEnv : Env := ⟨fun _ _ => false⟩

/-- Scenario A manifest rows: two plain files, empty storage class, no
force marker. -/
def scenarioA_rows : List (List String) :=
  [["a.txt", "backup/a.txt", "", ""], ["b.txt", "backup/b.txt", "", ""]]

/-- The parsed Scenario A manifest. -/
def scenarioA_entries : List FreezerEntry :=
  [⟨"a.txt", "backup/a.txt", StorageClass.DEEP_ARCHIVE, false⟩,
   ⟨"b.txt", "backup/b.txt", StorageClass.DEEP_ARCHIVE, false⟩]

/-- Scenario A filesystem: both sources are plain files. -/
def scenarioA_state : RunState := ⟨⟨["a.txt", "b.txt"], []⟩, [], []⟩

/-- C1: the claim (and spec Scenario A) says that for plain-file entries a
successful upload is followed by status FROZEN, so both rows end FROZEN
with the default DEEP_ARCHIVE tier.  Evaluating the code at exactly that
input: parsing yields the two default-tier entries, the missing ledger
reads as empty, the run completes, the ledger has two rows with
DEEP_ARCHIVE, and both uploads are issued and succeed — but both rows end
FREEZING, because `_upload_entry` discards `_upload_file`'s result for
plain-file sources and always returns False, so `_upload` never advances
the status to FROZEN.  The code contradicts the claim on its own scenario. -/
theorem scenarioA_file_entries_end_freezing_not_frozen :
    _read_freezer scenarioA_rows = some scenarioA_entries
    ∧ _read_lock none = some []
    ∧ (∀ x y, allOkEnv.uploadOk x y = true)
    ∧ (freeze scenarioA_entries [] true "/tmp" allOkEnv scenarioA_state).map
        (fun r => (r.1.map FreezerLockEntry.status,
          r.1.map FreezerLockEntry.storage_class, r.2.uploads))
      = Except.ok ([LockStatus.FREEZING, LockStatus.FREEZING],
          [StorageClass.DEEP_ARCHIVE, StorageClass.DEEP_ARCHIVE],
          [⟨"a.txt", "backup/a.txt", StorageClass.DEEP_ARCHIVE⟩,
           ⟨"b.txt", "backup/b.txt", StorageClass.DEEP_ARCHIVE⟩]) :=
  ⟨rfl, rfl, fun _ _ => rfl, rfl⟩

/-- A FROZEN, forced ledger entry whose source is a plain file. -/
def forcedFrozenEntry : FreezerLockEntry :=
  ⟨"backup/c.txt", "c.txt", StorageClass.DEEP_ARCHIVE, LockStatus.FROZEN, true⟩

/-- Manifest still listing the forced entry's target. -/
def forcedManifest : List FreezerEntry :=
  [⟨"c.txt", "backup/c.txt", StorageClass.DEEP_ARCHIVE, true⟩]

/-- Filesystem for the forced-entry run: the source is a plain file. -/
def forcedState : RunState := ⟨⟨["c.txt"], []⟩, [], []⟩

/-- C4: the claim says a `force=true`, FROZEN entry listed in the manifest
is selected, set to FREEZING, re-uploaded, and — the upload succeeding —
ends FROZEN again.  Evaluating the code: the entry is selected
(`requires_upload` is true), the persisted dumps show the FROZEN → FREEZING
transition, the re-upload is issued and succeeds, but the run ends with the
entry still FREEZING, because for plain-file sources `_upload_entry`
discards the upload's success and returns False.  The code contradicts the
claim's final state on plain-file sources. -/
theorem forced_frozen_file_entry_ends_freezing :
    forcedFrozenEntry.requires_upload = true
    ∧ forcedFrozenEntry.status = LockStatus.FROZEN
    ∧ forcedFrozenEntry.force = true
    ∧ (freeze forcedManifest [forcedFrozenEntry] true "/tmp" allOkEnv
        forcedState).map
        (fun r => (r.1.map FreezerLockEntry.status, r.2.uploads,
          r.2.dumps.map (fun d => d.map (fun row => row.getD 3 ""))))
      = Except.ok ([LockStatus.FREEZING],
          [⟨"c.txt", "backup/c.txt", StorageClass.DEEP_ARCHIVE⟩],
          [["20-frozen"], ["10-freezing"], ["10-freezing"]]) :=
  ⟨rfl, rfl, rfl, rfl⟩

/-- A manifest carrying the same target_path twice. -/
def dupTargetManifest : List FreezerEntry :=
  [⟨"s1", "backup/t", StorageClass.DEEP_ARCHIVE, false⟩,
   ⟨"s2", "backup/t", StorageClass.DEEP_ARCHIVE, false⟩]

/-- C2 counterexample: the claim quantifies over every manifest sequence M
and asserts the reconciled ledger has exactly one entry per target_path
occurring in M.  For the manifest listing target `backup/t` twice (against
the empty prior ledger) the reconciled ledger holds two entries with that
target_path, so the claim as stated is false. -/
theorem dup_target_manifest_breaks_target_uniqueness :
    ¬ (((_update_lock_entries dupTargetManifest []).filter
        (fun e => e.target_path == "backup/t")).length = 1)
    ∧ ((_update_lock_entries dupTargetManifest []).filter
        (fun e => e.target_path == "backup/t")).length = 2 :=
  ⟨by decide, by decide⟩

/-- A directory-source ledger entry whose target ends in `.star`. -/
def starEntry : FreezerLockEntry :=
  ⟨"backup/x.star", "d", StorageClass.DEEP_ARCHIVE, LockStatus.FREEZING, false⟩

/-- Filesystem for the `.star` run: the source `d` is a directory. -/
def starState : RunState := ⟨⟨[], ["d"]⟩, [], []⟩

/-- C6 counterexample: the claim says that for a directory source any
target suffix other than `.tar.gz` / `.tar` raises a fatal
unsupported-entry error.  The code tests `endswith('tar.gz')` and
`endswith('tar')` without the dot, so the target `backup/x.star` — which
ends in neither `.tar.gz` nor `.tar` — is packed as an uncompressed tar
archive and uploaded instead of raising: no third mode, but no error
either. -/
theorem star_suffix_is_packed_not_rejected :
    str_endswith "backup/x.star" ".tar.gz" = false
    ∧ str_endswith "backup/x.star" ".tar" = false
    ∧ starState.fs.isdir starEntry.source_path = true
    ∧ starState.fs.isfile starEntry.source_path = false
    ∧ _upload_entry starEntry true "/tmp" allOkEnv starState
      = Except.ok (true, ⟨⟨["/tmp/d.tar"], ["d"]⟩,
          [⟨"/tmp/d.tar", "backup/x.star", StorageClass.DEEP_ARCHIVE⟩], []⟩) :=
  ⟨by decide, by decide, rfl, rfl, rfl⟩

/-- C2 (amended): for every manifest M whose target_paths are pairwise
distinct and every prior ledger L, the reconciled ledger equals the
manifest entries resolved in manifest order (the first matching ledger
entry carried forward, else a fresh PENDING entry built from the manifest
entry) followed by the leftover ledger entries deprecated in prior ledger
order; it has exactly one entry per target_path occurring in M; and no
entry of the deprecated block has a target_path occurring in M, so nothing
matched in step 1 reappears in step 2. -/
theorem reconcile_converges (M : List FreezerEntry) (L : List FreezerLockEntry)
    (hM : (M.map FreezerEntry.target_path).Nodup) :
    _update_lock_entries M L = reconcileSpec M L
    ∧ (∀ t, t ∈ M.map FreezerEntry.target_path →
        ((_update_lock_entries M L).filter
          (fun e => e.target_path == t)).length = 1)
    ∧ (∀ e, e ∈ (L.filter (fun le => (M.find?
          (fun fe => fe.target_path == le.target_path)).isNone)).map
          FreezerLockEntry.deprecate →
        e.target_path ∉ M.map FreezerEntry.target_path) :=
  ⟨update_lock_entries_eq_reconcileSpec M L,
   fun t ht => reconcile_count_one M L hM t ht,
   fun e he => reconcile_secondPass_not_mem M L e he⟩

/-- Witness for `reconcile_converges` at a concrete manifest and ledger. -/
theorem reconcile_converges_witness :
    ((([⟨"s1", "t1", StorageClass.DEEP_ARCHIVE, false⟩,
        ⟨"s2", "t2", StorageClass.STANDARD, true⟩] :
          List FreezerEntry).map FreezerEntry.target_path).Nodup)
    ∧ (_update_lock_entries
          [⟨"s1", "t1", StorageClass.DEEP_ARCHIVE, false⟩,
           ⟨"s2", "t2", StorageClass.STANDARD, true⟩]
          [⟨"t9", "s9", StorageClass.GLACIER, LockStatus.FROZEN, false⟩]
        = reconcileSpec
          [⟨"s1", "t1", StorageClass.DEEP_ARCHIVE, false⟩,
           ⟨"s2", "t2", StorageClass.STANDARD, true⟩]
          [⟨"t9", "s9", StorageClass.GLACIER, LockStatus.FROZEN, false⟩]) :=
  ⟨by decide,
   (reconcile_converges
     [⟨"s1", "t1", StorageClass.DEEP_ARCHIVE, false⟩,
      ⟨"s2", "t2", StorageClass.STANDARD, true⟩]
     [⟨"t9", "s9", StorageClass.GLACIER, LockStatus.FROZEN, false⟩]
     (by decide)).1⟩

/-- C5: with pairwise-distinct target_paths in the manifest and in the
prior ledger, the reconciled ledger has pairwise-distinct target_paths;
every in-place status transition `setStatus` preserves the target_path
sequence and the length (no entry added or removed); and any completed
run's final ledger keeps exactly the reconciled target_path sequence,
hence stays duplicate-free. -/
theorem target_paths_unique_invariant (M : List FreezerEntry)
    (L : List FreezerLockEntry)
    (hM : (M.map FreezerEntry.target_path).Nodup)
    (hL : (L.map FreezerLockEntry.target_path).Nodup) :
    ((_update_lock_entries M L).map FreezerLockEntry.target_path).Nodup
    ∧ (∀ (l : List FreezerLockEntry) (i : Nat) (s : LockStatus),
        (setStatus l i s).map FreezerLockEntry.target_path
            = l.map FreezerLockEntry.target_path
          ∧ (setStatus l i s).length = l.length)
    ∧ (∀ python_tar tmp_dir env st final st',
        freeze M L python_tar tmp_dir env st = Except.ok (final, st') →
        final.map FreezerLockEntry.target_path
            = (_update_lock_entries M L).map FreezerLockEntry.target_path
          ∧ (final.map FreezerLockEntry.target_path).Nodup) := by
  refine ⟨reconcile_map_target_nodup M L hM hL,
    fun l i s => ⟨setStatus_map_target l i s, setStatus_length l i s⟩,
    fun python_tar tmp_dir env st final st' hrun => ?_⟩
  unfold freeze _upload at hrun
  have h := uploadLoop_map_target python_tar tmp_dir env _ _ _ _ _ hrun
  exact ⟨h, h ▸ reconcile_map_target_nodup M L hM hL⟩

/-- Witness for `target_paths_unique_invariant` at a concrete run. -/
theorem target_paths_unique_invariant_witness :
    ((([⟨"a.txt", "backup/a.txt", StorageClass.DEEP_ARCHIVE, false⟩] :
        List FreezerEntry).map FreezerEntry.target_path).Nodup)
    ∧ ((([⟨"backup/z", "z", StorageClass.STANDARD, LockStatus.FROZEN, false⟩] :
        List FreezerLockEntry).map FreezerLockEntry.target_path).Nodup)
    ∧ ((_update_lock_entries
        [⟨"a.txt", "backup/a.txt", StorageClass.DEEP_ARCHIVE, false⟩]
        [⟨"backup/z", "z", StorageClass.STANDARD, LockStatus.FROZEN, false⟩]).map
          FreezerLockEntry.target_path).Nodup :=
  ⟨by decide, by decide,
   (target_paths_unique_invariant
     [⟨"a.txt", "backup/a.txt", StorageClass.DEEP_ARCHIVE, false⟩]
     [⟨"backup/z", "z", StorageClass.STANDARD, LockStatus.FROZEN, false⟩]
     (by decide) (by decide)).1⟩

/-- C3: the orchestrator selects exactly the entries whose status is
outside {FROZEN, DEPRECATED} or whose force flag is set; consequently a
FROZEN, non-forced ledger entry whose target_path is absent from the
manifest (ledger target_paths being unique) ends a completed run as its
DEPRECATED copy, and every upload call issued during the run targets a
different target_path. -/
theorem frozen_absent_entry_deprecated_without_upload
    (M : List FreezerEntry) (L : List FreezerLockEntry) (le : FreezerLockEntry)
    (python_tar : Bool) (tmp_dir : String) (env : Env) (st : RunState)
    (final : List FreezerLockEntry) (st' : RunState)
    (hL : (L.map FreezerLockEntry.target_path).Nodup)
    (hmem : le ∈ L) (hstatus : le.status = LockStatus.FROZEN)
    (hforce : le.force = false)
    (habsent : le.target_path ∉ M.map FreezerEntry.target_path)
    (hrun : freeze M L python_tar tmp_dir env st = Except.ok (final, st')) :
    (∀ e : FreezerLockEntry, e.requires_upload
        = (!(e.status == LockStatus.FROZEN || e.status == LockStatus.DEPRECATED)
          || e.force))
    ∧ le.deprecate ∈ final
    ∧ (∀ c ∈ st'.uploads, c ∈ st.uploads ∨ c.target_path ≠ le.target_path) := by
  have hsel : ∀ e : FreezerLockEntry, e.requires_upload
      = (!(e.status == LockStatus.FROZEN || e.status == LockStatus.DEPRECATED)
        || e.force) := by
    intro e
    obtain ⟨t, s, sc, stt, f⟩ := e
    cases stt <;> rfl
  have hfind : M.find? (fun fe => fe.target_path == le.target_path) = none := by
    rw [List.find?_eq_none]
    intro fe hfe hbe
    exact habsent (List.mem_map.mpr ⟨fe, hfe, eq_of_beq hbe⟩)
  have hfilter : le ∈ L.filter (fun x => (M.find?
      (fun fe => fe.target_path == x.target_path)).isNone) :=
    List.mem_filter.mpr ⟨hmem, by rw [hfind]; rfl⟩
  have hsecond : le.deprecate ∈ (L.filter (fun x => (M.find?
      (fun fe => fe.target_path == x.target_path)).isNone)).map
        FreezerLockEntry.deprecate :=
    List.mem_map_of_mem FreezerLockEntry.deprecate hfilter
  have hR : le.deprecate ∈ _update_lock_entries M L := by
    rw [update_lock_entries_eq_reconcileSpec]
    unfold reconcileSpec
    exact List.mem_append_right _ hsecond
  have hreq : le.deprecate.requires_upload = false := by
    show (!(UPLOADED_STATUSES.contains LockStatus.DEPRECATED) || le.force) = false
    rw [hforce]
    rfl
  obtain ⟨j, hj⟩ := List.get?_of_mem hR
  have hjnot : j ∉ pendingIndices (_update_lock_entries M L) := by
    intro hc
    obtain ⟨e, he, hru⟩ := (mem_pendingIndices (_update_lock_entries M L) j).mp hc
    rw [hj] at he
    injection he with he
    rw [← he, hreq] at hru
    exact Bool.false_ne_true hru
  unfold freeze _upload at hrun
  have hlen : ∀ i ∈ pendingIndices (_update_lock_entries M L),
      i < (_update_lock_entries M L).length := by
    intro i hi
    obtain ⟨e, he, -⟩ := (mem_pendingIndices (_update_lock_entries M L) i).mp hi
    obtain ⟨hlt, -⟩ := List.get?_eq_some.mp he
    exact hlt
  refine ⟨hsel, ?_, ?_⟩
  · have hframe := uploadLoop_get?_frame python_tar tmp_dir env j _ _ _ _ _
      hjnot hrun
    exact List.get?_mem (hframe.trans hj)
  · intro c hc
    have hupl := uploadLoop_uploads python_tar tmp_dir env _ _ _ _ _
      hlen hrun c hc
    cases hupl with
    | inl h => exact Or.inl h
    | inr h =>
      obtain ⟨i, hi, e, he, hte⟩ := h
      right
      intro hceq
      have hete : e.target_path = le.target_path := hte ▸ hceq
      have heR : e ∈ _update_lock_entries M L := List.get?_mem he
      have hereq : e.requires_upload = true := by
        obtain ⟨e2, he2, hru2⟩ :=
          (mem_pendingIndices (_update_lock_entries M L) i).mp hi
        rw [he] at he2
        injection he2 with he2
        rw [he2]
        exact hru2
      rw [update_lock_entries_eq_reconcileSpec] at heR
      unfold reconcileSpec at heR
      rw [List.mem_append] at heR
      cases heR with
      | inl hfirst =>
        rw [List.mem_map] at hfirst
        obtain ⟨fe, hfe, hfeq⟩ := hfirst
        apply habsent
        rw [← hete, ← hfeq, resolveEntry_target]
        exact List.mem_map_of_mem FreezerEntry.target_path hfe
      | inr hsnd =>
        rw [List.mem_map] at hsnd
        obtain ⟨d, hd, hdeq⟩ := hsnd
        have hdL : d ∈ L := (List.mem_filter.mp hd).1
        have hdt : d.target_path = le.target_path := by
          have hh : d.deprecate.target_path = e.target_path := by rw [hdeq]
          rw [← hete]
          exact hh
        have hdle : d = le := List.inj_on_of_nodup_map hL hdL hmem hdt
        rw [hdle] at hdeq
        rw [← hdeq, hreq] at hereq
        exact Bool.false_ne_true hereq

/-- Witness for `frozen_absent_entry_deprecated_without_upload`:
Scenario B run with an empty manifest against a one-row FROZEN ledger. -/
theorem frozen_absent_entry_witness :
    ((([⟨"backup/x", "x", StorageClass.STANDARD, LockStatus.FROZEN, false⟩] :
        List FreezerLockEntry).map FreezerLockEntry.target_path).Nodup)
    ∧ ((⟨"backup/x", "x", StorageClass.STANDARD, LockStatus.FROZEN, false⟩ :
        FreezerLockEntry).deprecate
      ∈ [(⟨"backup/x", "x", StorageClass.STANDARD, LockStatus.DEPRECATED,
          false⟩ : FreezerLockEntry)]) := by
  have hrun : freeze []
      [⟨"backup/x", "x", StorageClass.STANDARD, LockStatus.FROZEN, false⟩]
      true "/tmp" allOkEnv ⟨⟨[], []⟩, [], []⟩
      = Except.ok
        ([⟨"backup/x", "x", StorageClass.STANDARD, LockStatus.DEPRECATED,
          false⟩],
         ⟨⟨[], []⟩, [],
          [[["backup/x", "x", "STANDARD", "90-deprecated", ""]]]⟩) := rfl
  have h := frozen_absent_entry_deprecated_without_upload []
    [⟨"backup/x", "x", StorageClass.STANDARD, LockStatus.FROZEN, false⟩]
    ⟨"backup/x", "x", StorageClass.STANDARD, LockStatus.FROZEN, false⟩
    true "/tmp" allOkEnv ⟨⟨[], []⟩, [], []⟩
    [⟨"backup/x", "x", StorageClass.STANDARD, LockStatus.DEPRECATED, false⟩]
    ⟨⟨[], []⟩, [], [[["backup/x", "x", "STANDARD", "90-deprecated", ""]]]⟩
    (by decide) (by decide) rfl rfl (by decide) hrun
  exact ⟨by decide, h.2.1⟩

theorem compress_tgz_path (entry : FreezerLockEntry) (python_tar : Bool)
    (tmp_dir : String) (fs : FS) :
    (_compress_tgz entry python_tar tmp_dir fs).2
      = os_path_join tmp_dir (os_path_basename entry.source_path ++ ".tar.gz") := by
  unfold _compress_tgz
  dsimp only []
  split <;> rfl

theorem pack_tar_path (entry : FreezerLockEntry) (python_tar : Bool)
    (tmp_dir : String) (fs : FS) :
    (_pack_tar entry python_tar tmp_dir fs).2
      = os_path_join tmp_dir (os_path_basename entry.source_path ++ ".tar") := by
  unfold _pack_tar
  dsimp only []
  split <;> rfl

/-- C6 (amended): for a directory-source entry the packaging mode is picked
from the target suffix tested without a required dot: a target ending in
`tar.gz` is compressed-packaged and the staged `.tar.gz` artifact uploaded;
otherwise a target ending in `tar` is tar-packaged and the staged `.tar`
artifact uploaded; any other target raises the fatal unsupported-extension
`ValueError`, which propagates out and aborts the run.  The three cases are
exhaustive: there is no third packaging mode. -/
theorem dir_entry_packaging_trichotomy (entry : FreezerLockEntry)
    (python_tar : Bool) (tmp_dir : String) (env : Env) (st : RunState)
    (hfile : st.fs.isfile entry.source_path = false)
    (hdir : st.fs.isdir entry.source_path = true) :
    (str_endswith entry.target_path "tar.gz" = true →
      _upload_entry entry python_tar tmp_dir env st
        = Except.ok (env.uploadOk (os_path_join tmp_dir
              (os_path_basename entry.source_path ++ ".tar.gz"))
              entry.target_path,
            { st with
              fs := (_compress_tgz entry python_tar tmp_dir st.fs).1,
              uploads := st.uploads ++ [⟨os_path_join tmp_dir
                (os_path_basename entry.source_path ++ ".tar.gz"),
                entry.target_path, entry.storage_class⟩] }))
    ∧ (str_endswith entry.target_path "tar.gz" = false →
        str_endswith entry.target_path "tar" = true →
      _upload_entry entry python_tar tmp_dir env st
        = Except.ok (env.uploadOk (os_path_join tmp_dir
              (os_path_basename entry.source_path ++ ".tar"))
              entry.target_path,
            { st with
              fs := (_pack_tar entry python_tar tmp_dir st.fs).1,
              uploads := st.uploads ++ [⟨os_path_join tmp_dir
                (os_path_basename entry.source_path ++ ".tar"),
                entry.target_path, entry.storage_class⟩] }))
    ∧ (str_endswith entry.target_path "tar.gz" = false →
        str_endswith entry.target_path "tar" = false →
      _upload_entry entry python_tar tmp_dir env st
        = Except.error ("Unknown extension for dir: " ++ entry.target_path)) := by
  refine ⟨fun hgz => ?_, fun hgz htar => ?_, fun hgz htar => ?_⟩
  · unfold _upload_entry
    dsimp only []
    rw [hfile, hdir, hgz]
    simp only [Bool.false_eq_true, if_false, if_true]
    cases hcz : _compress_tgz entry python_tar tmp_dir st.fs with
    | mk fs1 lf =>
      have hlf : lf = os_path_join tmp_dir
          (os_path_basename entry.source_path ++ ".tar.gz") := by
        have hpp := compress_tgz_path entry python_tar tmp_dir st.fs
        rw [hcz] at hpp
        exact hpp
      rw [hlf]
      rfl
  · unfold _upload_entry
    dsimp only []
    rw [hfile, hdir, hgz, htar]
    simp only [Bool.false_eq_true, if_false, if_true]
    cases hcz : _pack_tar entry python_tar tmp_dir st.fs with
    | mk fs1 lf =>
      have hlf : lf = os_path_join tmp_dir
          (os_path_basename entry.source_path ++ ".tar") := by
        have hpp := pack_tar_path entry python_tar tmp_dir st.fs
        rw [hcz] at hpp
        exact hpp
      rw [hlf]
      rfl
  · unfold _upload_entry
    dsimp only []
    rw [hfile, hdir, hgz, htar]
    simp only [Bool.false_eq_true, if_false, if_true]

/-- Witness for `dir_entry_packaging_trichotomy`: a directory entry with a
`.tar.gz` target in an empty staging directory. -/
theorem dir_entry_packaging_trichotomy_witness :
    ((⟨⟨[], ["logs"]⟩, [], []⟩ : RunState).fs.isfile "logs" = false)
    ∧ ((⟨⟨[], ["logs"]⟩, [], []⟩ : RunState).fs.isdir "logs" = true)
    ∧ str_endswith "archive/logs.tar.gz" "tar.gz" = true
    ∧ _upload_entry
        ⟨"archive/logs.tar.gz", "logs", StorageClass.DEEP_ARCHIVE,
          LockStatus.FREEZING, false⟩
        true "/tmp" allOkEnv ⟨⟨[], ["logs"]⟩, [], []⟩
      = Except.ok (true, ⟨⟨["/tmp/logs.tar.gz"], ["logs"]⟩,
          [⟨"/tmp/logs.tar.gz", "archive/logs.tar.gz",
            StorageClass.DEEP_ARCHIVE⟩], []⟩) := by
  refine ⟨rfl, rfl, by decide, ?_⟩
  have h := (dir_entry_packaging_trichotomy
    ⟨"archive/logs.tar.gz", "logs", StorageClass.DEEP_ARCHIVE,
      LockStatus.FREEZING, false⟩
    true "/tmp" allOkEnv ⟨⟨[], ["logs"]⟩, [], []⟩ rfl rfl).1 (by decide)
  rw [h]
  rfl

/-- C7: for every selected entry whose upload fails with a provider error
— plain-file source, or directory source with either packaging suffix —
the upload step returns the failure signal `false` (an `Except.ok`, not
an `Except.error`): the loop does not advance the entry to FROZEN, leaves
it at the FREEZING it had just persisted, records one more full ledger
rewrite of exactly that FREEZING state, and continues with the remaining
selected entries instead of aborting. -/
theorem failed_upload_leaves_freezing_and_continues
    (i : Nat) (rest : List Nat) (entries : List FreezerLockEntry)
    (python_tar : Bool) (tmp_dir : String) (env : Env) (st : RunState)
    (e0 : FreezerLockEntry)
    (hget : entries.get? i = some e0)
    (hshape : st.fs.isfile e0.source_path = true
      ∨ (st.fs.isfile e0.source_path = false
        ∧ st.fs.isdir e0.source_path = true
        ∧ (str_endswith e0.target_path "tar.gz" = true
          ∨ str_endswith e0.target_path "tar" = true)))
    (hfail : ∀ src, env.uploadOk src e0.target_path = false) :
    ∃ st2 : RunState,
      _upload_entry ({ e0 with status := LockStatus.FREEZING }) python_tar
          tmp_dir env (addDump st (setStatus entries i LockStatus.FREEZING))
        = Except.ok (false, st2)
      ∧ _uploadLoop (i :: rest) entries python_tar tmp_dir env st
          = _uploadLoop rest (setStatus entries i LockStatus.FREEZING)
              python_tar tmp_dir env
              (addDump st2 (setStatus entries i LockStatus.FREEZING))
      ∧ (setStatus entries i LockStatus.FREEZING).get? i
          = some { e0 with status := LockStatus.FREEZING }
      ∧ (addDump st2 (setStatus entries i LockStatus.FREEZING)).dumps
          = st2.dumps ++ [_dump_lock (setStatus entries i LockStatus.FREEZING)] := by
  have hgd : (setStatus entries i LockStatus.FREEZING).getD i default
      = { e0 with status := LockStatus.FREEZING } := by
    have hset := setStatus_get?_eq entries i LockStatus.FREEZING e0 hget
    rw [List.getD_eq_getElem?_getD, ← List.get?_eq_getElem?, hset]
    rfl
  have hupe : ∃ st2 : RunState,
      _upload_entry ({ e0 with status := LockStatus.FREEZING }) python_tar
          tmp_dir env (addDump st (setStatus entries i LockStatus.FREEZING))
        = Except.ok (false, st2) := by
    cases hshape with
    | inl hf =>
      refine ⟨{ addDump st (setStatus entries i LockStatus.FREEZING) with
          uploads := (addDump st (setStatus entries i
            LockStatus.FREEZING)).uploads
            ++ [⟨e0.source_path, e0.target_path, e0.storage_class⟩] }, ?_⟩
      unfold _upload_entry
      dsimp only []
      rw [show ((addDump st (setStatus entries i LockStatus.FREEZING)).fs.isfile
          ({ e0 with status := LockStatus.FREEZING} :
            FreezerLockEntry).source_path) = true from hf]
      simp only [if_true]
      rfl
    | inr hrest3 =>
      obtain ⟨hnf, hd, hsuf⟩ := hrest3
      unfold _upload_entry
      dsimp only []
      rw [show ((addDump st (setStatus entries i LockStatus.FREEZING)).fs.isfile
          ({ e0 with status := LockStatus.FREEZING} :
            FreezerLockEntry).source_path) = false from hnf]
      rw [show ((addDump st (setStatus entries i LockStatus.FREEZING)).fs.isdir
          ({ e0 with status := LockStatus.FREEZING} :
            FreezerLockEntry).source_path) = true from hd]
      simp only [Bool.false_eq_true, if_false, if_true]
      cases hgz : str_endswith e0.target_path "tar.gz" with
      | true =>
        simp only [if_true]
        cases hcz : _compress_tgz { e0 with status := LockStatus.FREEZING }
            python_tar tmp_dir
            (addDump st (setStatus entries i LockStatus.FREEZING)).fs with
        | mk fs1 lf =>
          refine ⟨{ addDump st (setStatus entries i LockStatus.FREEZING) with
              fs := fs1,
              uploads := (addDump st (setStatus entries i
                LockStatus.FREEZING)).uploads
                ++ [⟨lf, e0.target_path, e0.storage_class⟩] }, ?_⟩
          unfold _upload_file
          dsimp only []
          rw [hfail lf]
      | false =>
        have htar : str_endswith e0.target_path "tar" = true := by
          cases hsuf with
          | inl h =>
            rw [hgz] at h
            exact absurd h Bool.false_ne_true
          | inr h => exact h
        simp only [Bool.false_eq_true, if_false]
        rw [htar]
        simp only [if_true]
        cases hcz : _pack_tar { e0 with status := LockStatus.FREEZING }
            python_tar tmp_dir
            (addDump st (setStatus entries i LockStatus.FREEZING)).fs with
        | mk fs1 lf =>
          refine ⟨{ addDump st (setStatus entries i LockStatus.FREEZING) with
              fs := fs1,
              uploads := (addDump st (setStatus entries i
                LockStatus.FREEZING)).uploads
                ++ [⟨lf, e0.target_path, e0.storage_class⟩] }, ?_⟩
          unfold _upload_file
          dsimp only []
          rw [hfail lf]
  obtain ⟨st2, hupe2⟩ := hupe
  refine ⟨st2, hupe2, ?_, setStatus_get?_eq entries i LockStatus.FREEZING e0 hget,
    rfl⟩
  conv_lhs => unfold _uploadLoop
  dsimp only []
  rw [hgd, hupe2]
  rfl

/-- Entry selected by C7's witness run: a plain-file source. -/
def c7entry : FreezerLockEntry :=
  ⟨"backup/f.txt", "f.txt", StorageClass.DEEP_ARCHIVE, LockStatus.PENDING, false⟩

/-- Run state for C7's witness run: `f.txt` is a plain file. -/
def c7state : RunState := ⟨⟨["f.txt"], []⟩, [], []⟩

/-- Witness for `failed_upload_leaves_freezing_and_continues`: a single
selected plain-file entry whose upload fails against `allFailEnv`. -/
theorem failed_upload_witness :
    ∃ st2 : RunState,
      _upload_entry ({ c7entry with status := LockStatus.FREEZING }) true "/tmp"
          allFailEnv (addDump c7state (setStatus [c7entry] 0 LockStatus.FREEZING))
        = Except.ok (false, st2)
      ∧ _uploadLoop [0] [c7entry] true "/tmp" allFailEnv c7state
          = _uploadLoop [] (setStatus [c7entry] 0 LockStatus.FREEZING) true
              "/tmp" allFailEnv
              (addDump st2 (setStatus [c7entry] 0 LockStatus.FREEZING))
      ∧ (setStatus [c7entry] 0 LockStatus.FREEZING).get? 0
          = some { c7entry with status := LockStatus.FREEZING }
      ∧ (addDump st2 (setStatus [c7entry] 0 LockStatus.FREEZING)).dumps
          = st2.dumps ++ [_dump_lock (setStatus [c7entry] 0 LockStatus.FREEZING)] :=
  failed_upload_leaves_freezing_and_continues 0 [] [c7entry] true "/tmp"
    allFailEnv c7state c7entry rfl (Or.inl rfl) (fun _ => rfl)

/-- C8: for both packaging modes the artifact-cache decision depends only
on the existence of the derived artifact file: packaging is skipped (the
filesystem is returned unchanged, the existing artifact reused) exactly
when the artifact already exists; the returned artifact path is always the
derived path `staging dir / basename(source) + suffix`; and the packaging
result is invariant under every value of the entry's force flag and
status. -/
theorem artifact_cache_by_existence_only :
    (∀ (entry : FreezerLockEntry) (python_tar : Bool) (tmp_dir : String)
        (fs : FS),
      ((_compress_tgz entry python_tar tmp_dir fs).1 = fs
        ↔ fs.isfile (os_path_join tmp_dir
            (os_path_basename entry.source_path ++ ".tar.gz")) = true)
      ∧ (_compress_tgz entry python_tar tmp_dir fs).2
          = os_path_join tmp_dir (os_path_basename entry.source_path ++ ".tar.gz")
      ∧ (∀ (s : LockStatus) (b : Bool),
          _compress_tgz { entry with status := s, force := b } python_tar
              tmp_dir fs
            = _compress_tgz entry python_tar tmp_dir fs))
    ∧ (∀ (entry : FreezerLockEntry) (python_tar : Bool) (tmp_dir : String)
        (fs : FS),
      ((_pack_tar entry python_tar tmp_dir fs).1 = fs
        ↔ fs.isfile (os_path_join tmp_dir
            (os_path_basename entry.source_path ++ ".tar")) = true)
      ∧ (_pack_tar entry python_tar tmp_dir fs).2
          = os_path_join tmp_dir (os_path_basename entry.source_path ++ ".tar")
      ∧ (∀ (s : LockStatus) (b : Bool),
          _pack_tar { entry with status := s, force := b } python_tar tmp_dir fs
            = _pack_tar entry python_tar tmp_dir fs)) := by
  constructor
  · intro entry python_tar tmp_dir fs
    refine ⟨?_, compress_tgz_path entry python_tar tmp_dir fs, fun s b => rfl⟩
    unfold _compress_tgz
    dsimp only []
    by_cases h : fs.isfile (os_path_join tmp_dir
        (os_path_basename entry.source_path ++ ".tar.gz")) = true
    · rw [if_pos h]
      exact iff_of_true rfl h
    · rw [if_neg h]
      constructor
      · intro he
        have hfiles := congrArg FS.files he
        have hlenf := congrArg List.length hfiles
        simp at hlenf
      · intro htrue
        exact absurd htrue h
  · intro entry python_tar tmp_dir fs
    refine ⟨?_, pack_tar_path entry python_tar tmp_dir fs, fun s b => rfl⟩
    unfold _pack_tar
    dsimp only []
    by_cases h : fs.isfile (os_path_join tmp_dir
        (os_path_basename entry.source_path ++ ".tar")) = true
    · rw [if_pos h]
      exact iff_of_true rfl h
    · rw [if_neg h]
      constructor
      · intro he
        have hfiles := congrArg FS.files he
        have hlenf := congrArg List.length hfiles
        simp at hlenf
      · intro htrue
        exact absurd htrue h

theorem find?_middle_isNone_congr (t : String) (fe fe' : FreezerEntry)
    (htp : fe'.target_path = fe.target_path) :
    ∀ (M1 M2 : List FreezerEntry),
      ((M1 ++ fe' :: M2).find? (fun x => x.target_path == t)).isNone
        = ((M1 ++ fe :: M2).find? (fun x => x.target_path == t)).isNone := by
  intro M1 M2
  induction M1 with
  | nil =>
    simp only [List.nil_append, List.find?_cons]
    rw [htp]
    cases hb : (fe.target_path == t) with
    | false => rfl
    | true => rfl
  | cons a M1 ih =>
    simp only [List.cons_append, List.find?_cons]
    cases hb : (a.target_path == t) with
    | false => exact ih
    | true => rfl

/-- C9: when a manifest entry's target_path already has a ledger entry, the
reconciler carries that ledger entry forward with every field taken from
the ledger; and replacing the manifest entry by any entry with the same
target_path (any source_path, storage_class and force) changes nothing:
neither the reconciled ledger nor the entire run, so neither the resulting
entry nor whether it is selected for upload. -/
theorem manifest_fields_ignored_for_ledgered_target
    (M1 M2 : List FreezerEntry) (L : List FreezerLockEntry)
    (fe fe' : FreezerEntry) (le : FreezerLockEntry)
    (hfind : L.find? (fun x => x.target_path == fe.target_path) = some le)
    (htp : fe'.target_path = fe.target_path) :
    (_update_lock_entries (M1 ++ fe :: M2) L).get? M1.length = some le
    ∧ _update_lock_entries (M1 ++ fe' :: M2) L
        = _update_lock_entries (M1 ++ fe :: M2) L
    ∧ (∀ (python_tar : Bool) (tmp_dir : String) (env : Env) (st : RunState),
        freeze (M1 ++ fe' :: M2) L python_tar tmp_dir env st
          = freeze (M1 ++ fe :: M2) L python_tar tmp_dir env st) := by
  have hres : resolveEntry L fe = le := by
    unfold resolveEntry
    rw [hfind]
  have hres' : resolveEntry L fe' = resolveEntry L fe := by
    unfold resolveEntry
    rw [show (fun (x : FreezerLockEntry) => x.target_path == fe'.target_path)
      = (fun (x : FreezerLockEntry) => x.target_path == fe.target_path) from by
        funext x
        rw [htp]]
    rw [hfind]
  have hget : (_update_lock_entries (M1 ++ fe :: M2) L).get? M1.length
      = some le := by
    rw [update_lock_entries_eq_reconcileSpec]
    unfold reconcileSpec
    rw [List.map_append, List.map_cons]
    rw [List.get?_append (by simp)]
    rw [List.get?_append_right (by rw [List.length_map])]
    rw [List.length_map, Nat.sub_self]
    rw [show ((resolveEntry L fe :: M2.map (resolveEntry L)).get? 0)
      = some (resolveEntry L fe) from rfl]
    rw [hres]
  have hrec : _update_lock_entries (M1 ++ fe' :: M2) L
      = _update_lock_entries (M1 ++ fe :: M2) L := by
    rw [update_lock_entries_eq_reconcileSpec, update_lock_entries_eq_reconcileSpec]
    unfold reconcileSpec
    congr 1
    · rw [List.map_append, List.map_append, List.map_cons, List.map_cons, hres']
    · congr 1
      apply List.filter_congr
      intro a _
      exact find?_middle_isNone_congr a.target_path fe fe' htp M1 M2
  exact ⟨hget, hrec, fun python_tar tmp_dir env st => by unfold freeze; rw [hrec]⟩

/-- Witness for `manifest_fields_ignored_for_ledgered_target`: a ledgered
target whose manifest row changes source, tier and force. -/
theorem manifest_fields_ignored_witness :
    (([(⟨"t0", "old-src", StorageClass.GLACIER, LockStatus.FROZEN, false⟩ :
        FreezerLockEntry)].find?
      (fun x => x.target_path == "t0")) = some
        ⟨"t0", "old-src", StorageClass.GLACIER, LockStatus.FROZEN, false⟩)
    ∧ (_update_lock_entries
        [⟨"new-src", "t0", StorageClass.STANDARD, true⟩]
        [⟨"t0", "old-src", StorageClass.GLACIER, LockStatus.FROZEN, false⟩]).get? 0
      = some ⟨"t0", "old-src", StorageClass.GLACIER, LockStatus.FROZEN, false⟩ := by
  have h := manifest_fields_ignored_for_ledgered_target [] []
    [⟨"t0", "old-src", StorageClass.GLACIER, LockStatus.FROZEN, false⟩]
    ⟨"src", "t0", StorageClass.DEEP_ARCHIVE, false⟩
    ⟨"new-src", "t0", StorageClass.STANDARD, true⟩
    ⟨"t0", "old-src", StorageClass.GLACIER, LockStatus.FROZEN, false⟩
    (by decide) rfl
  refine ⟨by decide, ?_⟩
  have h2 := h.2.1
  rw [show ([] ++ (⟨"new-src", "t0", StorageClass.STANDARD, true⟩ :
      FreezerEntry) :: []) = [(⟨"new-src", "t0", StorageClass.STANDARD, true⟩ :
      FreezerEntry)] from rfl] at h2
  rw [h2]
  have h1 := h.1
  rw [show ([] ++ (⟨"src", "t0", StorageClass.DEEP_ARCHIVE, false⟩ :
      FreezerEntry) :: []) = [(⟨"src", "t0", StorageClass.DEEP_ARCHIVE, false⟩ :
      FreezerEntry)] from rfl] at h1
  exact h1

/-- C10: the staging artifact path is derived only from the staging
directory, the source directory's basename and the packaging suffix, for
both packaging modes.  Two directory entries with equal source basenames
and the same packaging suffix — `tar.gz` targets in the first part,
`tar` (and not `tar.gz`) targets in the second — derive one shared
artifact path `p`: processing the first packages `p` (adding it to the
staging filesystem) and uploads `p`; processing the second afterwards
skips packaging (the filesystem is unchanged) and uploads that same `p`,
the artifact packaged from the first entry's directory. -/
theorem same_basename_shares_artifact :
    (∀ (e1 e2 : FreezerLockEntry) (python_tar : Bool) (tmp_dir : String)
        (env : Env) (st : RunState),
      os_path_basename e2.source_path = os_path_basename e1.source_path →
      str_endswith e1.target_path "tar.gz" = true →
      str_endswith e2.target_path "tar.gz" = true →
      st.fs.isfile e1.source_path = false →
      st.fs.isdir e1.source_path = true →
      st.fs.isfile (os_path_join tmp_dir
        (os_path_basename e1.source_path ++ ".tar.gz")) = false →
      st.fs.isfile e2.source_path = false →
      st.fs.isdir e2.source_path = true →
      e2.source_path ≠ os_path_join tmp_dir
        (os_path_basename e1.source_path ++ ".tar.gz") →
      _upload_entry e1 python_tar tmp_dir env st
        = Except.ok (env.uploadOk (os_path_join tmp_dir
            (os_path_basename e1.source_path ++ ".tar.gz")) e1.target_path,
            { st with
              fs := ⟨os_path_join tmp_dir (os_path_basename e1.source_path
                ++ ".tar.gz") :: st.fs.files, st.fs.dirs⟩,
              uploads := st.uploads ++ [⟨os_path_join tmp_dir
                (os_path_basename e1.source_path ++ ".tar.gz"),
                e1.target_path, e1.storage_class⟩] })
      ∧ _upload_entry e2 python_tar tmp_dir env
          { st with
            fs := ⟨os_path_join tmp_dir (os_path_basename e1.source_path
              ++ ".tar.gz") :: st.fs.files, st.fs.dirs⟩,
            uploads := st.uploads ++ [⟨os_path_join tmp_dir
              (os_path_basename e1.source_path ++ ".tar.gz"),
              e1.target_path, e1.storage_class⟩] }
        = Except.ok (env.uploadOk (os_path_join tmp_dir
            (os_path_basename e1.source_path ++ ".tar.gz")) e2.target_path,
            { st with
              fs := ⟨os_path_join tmp_dir (os_path_basename e1.source_path
                ++ ".tar.gz") :: st.fs.files, st.fs.dirs⟩,
              uploads := st.uploads ++ [⟨os_path_join tmp_dir
                (os_path_basename e1.source_path ++ ".tar.gz"),
                e1.target_path, e1.storage_class⟩] ++ [⟨os_path_join tmp_dir
                  (os_path_basename e1.source_path ++ ".tar.gz"),
                  e2.target_path, e2.storage_class⟩] }))
    ∧ (∀ (e1 e2 : FreezerLockEntry) (python_tar : Bool) (tmp_dir : String)
        (env : Env) (st : RunState),
      os_path_basename e2.source_path = os_path_basename e1.source_path →
      str_endswith e1.target_path "tar.gz" = false →
      str_endswith e1.target_path "tar" = true →
      str_endswith e2.target_path "tar.gz" = false →
      str_endswith e2.target_path "tar" = true →
      st.fs.isfile e1.source_path = false →
      st.fs.isdir e1.source_path = true →
      st.fs.isfile (os_path_join tmp_dir
        (os_path_basename e1.source_path ++ ".tar")) = false →
      st.fs.isfile e2.source_path = false →
      st.fs.isdir e2.source_path = true →
      e2.source_path ≠ os_path_join tmp_dir
        (os_path_basename e1.source_path ++ ".tar") →
      _upload_entry e1 python_tar tmp_dir env st
        = Except.ok (env.uploadOk (os_path_join tmp_dir
            (os_path_basename e1.source_path ++ ".tar")) e1.target_path,
            { st with
              fs := ⟨os_path_join tmp_dir (os_path_basename e1.source_path
                ++ ".tar") :: st.fs.files, st.fs.dirs⟩,
              uploads := st.uploads ++ [⟨os_path_join tmp_dir
                (os_path_basename e1.source_path ++ ".tar"),
                e1.target_path, e1.storage_class⟩] })
      ∧ _upload_entry e2 python_tar tmp_dir env
          { st with
            fs := ⟨os_path_join tmp_dir (os_path_basename e1.source_path
              ++ ".tar") :: st.fs.files, st.fs.dirs⟩,
            uploads := st.uploads ++ [⟨os_path_join tmp_dir
              (os_path_basename e1.source_path ++ ".tar"),
              e1.target_path, e1.storage_class⟩] }
        = Except.ok (env.uploadOk (os_path_join tmp_dir
            (os_path_basename e1.source_path ++ ".tar")) e2.target_path,
            { st with
              fs := ⟨os_path_join tmp_dir (os_path_basename e1.source_path
                ++ ".tar") :: st.fs.files, st.fs.dirs⟩,
              uploads := st.uploads ++ [⟨os_path_join tmp_dir
                (os_path_basename e1.source_path ++ ".tar"),
                e1.target_path, e1.storage_class⟩] ++ [⟨os_path_join tmp_dir
                  (os_path_basename e1.source_path ++ ".tar"),
                  e2.target_path, e2.storage_class⟩] })) := by
  constructor
  · intro e1 e2 python_tar tmp_dir env st hb h1gz h2gz h1f h1d hp h2f h2d h2p
    have hcz1 : _compress_tgz e1 python_tar tmp_dir st.fs
        = (⟨os_path_join tmp_dir (os_path_basename e1.source_path ++ ".tar.gz")
            :: st.fs.files, st.fs.dirs⟩, os_path_join tmp_dir
            (os_path_basename e1.source_path ++ ".tar.gz")) := by
      unfold _compress_tgz
      dsimp only []
      rw [if_neg (by rw [hp]; exact Bool.false_ne_true)]
    constructor
    · unfold _upload_entry
      dsimp only []
      rw [h1f, h1d, h1gz]
      simp only [Bool.false_eq_true, if_false, if_true]
      rw [hcz1]
      rfl
    · unfold _upload_entry
      dsimp only []
      rw [show (FS.isfile ⟨os_path_join tmp_dir (os_path_basename e1.source_path
          ++ ".tar.gz") :: st.fs.files, st.fs.dirs⟩ e2.source_path) = false from by
        show List.elem e2.source_path (os_path_join tmp_dir
          (os_path_basename e1.source_path ++ ".tar.gz") :: st.fs.files) = false
        rw [List.elem_cons, beq_eq_false_iff_ne.mpr h2p]
        exact h2f]
      rw [show (FS.isdir ⟨os_path_join tmp_dir (os_path_basename e1.source_path
          ++ ".tar.gz") :: st.fs.files, st.fs.dirs⟩ e2.source_path) = true from h2d]
      rw [h2gz]
      simp only [Bool.false_eq_true, if_false, if_true]
      rw [show _compress_tgz e2 python_tar tmp_dir ⟨os_path_join tmp_dir
          (os_path_basename e1.source_path ++ ".tar.gz") :: st.fs.files,
          st.fs.dirs⟩
        = (⟨os_path_join tmp_dir (os_path_basename e1.source_path ++ ".tar.gz")
            :: st.fs.files, st.fs.dirs⟩, os_path_join tmp_dir
            (os_path_basename e1.source_path ++ ".tar.gz")) from by
        unfold _compress_tgz
        dsimp only []
        rw [hb]
        rw [if_pos (by
          show List.elem (os_path_join tmp_dir (os_path_basename e1.source_path
            ++ ".tar.gz")) (os_path_join tmp_dir (os_path_basename e1.source_path
            ++ ".tar.gz") :: st.fs.files) = true
          rw [List.elem_cons, beq_self_eq_true])]]
      rfl
  · intro e1 e2 python_tar tmp_dir env st hb h1gz h1t h2gz h2t h1f h1d hp h2f
      h2d h2p
    have hpz1 : _pack_tar e1 python_tar tmp_dir st.fs
        = (⟨os_path_join tmp_dir (os_path_basename e1.source_path ++ ".tar")
            :: st.fs.files, st.fs.dirs⟩, os_path_join tmp_dir
            (os_path_basename e1.source_path ++ ".tar")) := by
      unfold _pack_tar
      dsimp only []
      rw [if_neg (by rw [hp]; exact Bool.false_ne_true)]
    constructor
    · unfold _upload_entry
      dsimp only []
      rw [h1f, h1d, h1gz, h1t]
      simp only [Bool.false_eq_true, if_false, if_true]
      rw [hpz1]
      rfl
    · unfold _upload_entry
      dsimp only []
      rw [show (FS.isfile ⟨os_path_join tmp_dir (os_path_basename e1.source_path
          ++ ".tar") :: st.fs.files, st.fs.dirs⟩ e2.source_path) = false from by
        show List.elem e2.source_path (os_path_join tmp_dir
          (os_path_basename e1.source_path ++ ".tar") :: st.fs.files) = false
        rw [List.elem_cons, beq_eq_false_iff_ne.mpr h2p]
        exact h2f]
      rw [show (FS.isdir ⟨os_path_join tmp_dir (os_path_basename e1.source_path
          ++ ".tar") :: st.fs.files, st.fs.dirs⟩ e2.source_path) = true from h2d]
      rw [h2gz, h2t]
      simp only [Bool.false_eq_true, if_false, if_true]
      rw [show _pack_tar e2 python_tar tmp_dir ⟨os_path_join tmp_dir
          (os_path_basename e1.source_path ++ ".tar") :: st.fs.files,
          st.fs.dirs⟩
        = (⟨os_path_join tmp_dir (os_path_basename e1.source_path ++ ".tar")
            :: st.fs.files, st.fs.dirs⟩, os_path_join tmp_dir
            (os_path_basename e1.source_path ++ ".tar")) from by
        unfold _pack_tar
        dsimp only []
        rw [hb]
        rw [if_pos (by
          show List.elem (os_path_join tmp_dir (os_path_basename e1.source_path
            ++ ".tar")) (os_path_join tmp_dir (os_path_basename e1.source_path
            ++ ".tar") :: st.fs.files) = true
          rw [List.elem_cons, beq_self_eq_true])]]
      rfl

/-- Witness for `same_basename_shares_artifact`: directories `x/d` and
`y/d` with `.tar.gz` targets for the first part, and directories `x/e`
and `y/e` with `.tar` targets for the second. -/
theorem same_basename_shares_artifact_witness :
    (_upload_entry ⟨"b/one.tar.gz", "x/d", StorageClass.DEEP_ARCHIVE,
        LockStatus.FREEZING, false⟩ true "/tmp" allOkEnv
        ⟨⟨[], ["x/d", "y/d"]⟩, [], []⟩
      = Except.ok (true, { (⟨⟨[], ["x/d", "y/d"]⟩, [], []⟩ : RunState) with
          fs := ⟨"/tmp/d.tar.gz" :: [], ["x/d", "y/d"]⟩,
          uploads := [] ++ [⟨"/tmp/d.tar.gz", "b/one.tar.gz",
            StorageClass.DEEP_ARCHIVE⟩] })
    ∧ _upload_entry ⟨"b/two.tar.gz", "y/d", StorageClass.STANDARD,
        LockStatus.FREEZING, false⟩ true "/tmp" allOkEnv
        { (⟨⟨[], ["x/d", "y/d"]⟩, [], []⟩ : RunState) with
          fs := ⟨"/tmp/d.tar.gz" :: [], ["x/d", "y/d"]⟩,
          uploads := [] ++ [⟨"/tmp/d.tar.gz", "b/one.tar.gz",
            StorageClass.DEEP_ARCHIVE⟩] }
      = Except.ok (true, { (⟨⟨[], ["x/d", "y/d"]⟩, [], []⟩ : RunState) with
          fs := ⟨"/tmp/d.tar.gz" :: [], ["x/d", "y/d"]⟩,
          uploads := [] ++ [⟨"/tmp/d.tar.gz", "b/one.tar.gz",
            StorageClass.DEEP_ARCHIVE⟩]
            ++ [⟨"/tmp/d.tar.gz", "b/two.tar.gz", StorageClass.STANDARD⟩] }))
    ∧ (_upload_entry ⟨"c/one.tar", "x/e", StorageClass.DEEP_ARCHIVE,
        LockStatus.FREEZING, false⟩ true "/tmp" allOkEnv
        ⟨⟨[], ["x/e", "y/e"]⟩, [], []⟩
      = Except.ok (true, { (⟨⟨[], ["x/e", "y/e"]⟩, [], []⟩ : RunState) with
          fs := ⟨"/tmp/e.tar" :: [], ["x/e", "y/e"]⟩,
          uploads := [] ++ [⟨"/tmp/e.tar", "c/one.tar",
            StorageClass.DEEP_ARCHIVE⟩] })
    ∧ _upload_entry ⟨"c/two.tar", "y/e", StorageClass.STANDARD,
        LockStatus.FREEZING, false⟩ true "/tmp" allOkEnv
        { (⟨⟨[], ["x/e", "y/e"]⟩, [], []⟩ : RunState) with
          fs := ⟨"/tmp/e.tar" :: [], ["x/e", "y/e"]⟩,
          uploads := [] ++ [⟨"/tmp/e.tar", "c/one.tar",
            StorageClass.DEEP_ARCHIVE⟩] }
      = Except.ok (true, { (⟨⟨[], ["x/e", "y/e"]⟩, [], []⟩ : RunState) with
          fs := ⟨"/tmp/e.tar" :: [], ["x/e", "y/e"]⟩,
          uploads := [] ++ [⟨"/tmp/e.tar", "c/one.tar",
            StorageClass.DEEP_ARCHIVE⟩]
            ++ [⟨"/tmp/e.tar", "c/two.tar", StorageClass.STANDARD⟩] })) := by
  constructor
  · exact same_basename_shares_artifact.1
      ⟨"b/one.tar.gz", "x/d", StorageClass.DEEP_ARCHIVE, LockStatus.FREEZING,
        false⟩
      ⟨"b/two.tar.gz", "y/d", StorageClass.STANDARD, LockStatus.FREEZING, false⟩
      true "/tmp" allOkEnv ⟨⟨[], ["x/d", "y/d"]⟩, [], []⟩
      (by decide) (by decide) (by decide) rfl rfl (by decide) rfl rfl (by decide)
  · exact same_basename_shares_artifact.2
      ⟨"c/one.tar", "x/e", StorageClass.DEEP_ARCHIVE, LockStatus.FREEZING,
        false⟩
      ⟨"c/two.tar", "y/e", StorageClass.STANDARD, LockStatus.FREEZING, false⟩
      true "/tmp" allOkEnv ⟨⟨[], ["x/e", "y/e"]⟩, [], []⟩
      (by decide) (by decide) (by decide) (by decide) (by decide) rfl rfl
      (by decide) rfl rfl (by decide)

end Freezeomatic
